import Mathlib

/-!
Verification of the openpilot parameter store (`selfdrive/common/params.cc`).

The store keeps one file per parameter under `<root>/d/`. We model the
contents of that keyed subdirectory as an association list from key name to
byte value, and each fallible POSIX step (mkstemp, write, fsync, rename,
unlink, fsync of the directory) by an explicit environment record saying
whether that step succeeds in the run under consideration.  The key registry
(`keys`, a C++ `std::unordered_map<std::string, uint32_t>`) is part of the
process state, because `Params::getKeyType` indexes it with `operator[]`,
which inserts a value-initialized entry when the key is missing.
-/

namespace ParamsModel

/-- A byte value: opaque byte sequence, one byte per list element. -/
abbrev Bytes := List Nat

/-- The files in the keyed subdirectory `<root>/d`: name to raw contents. -/
abbrev Files := List (String × Bytes)

/-- The key registry: name to category bitmask
(`std::unordered_map<std::string, uint32_t> keys`). -/
abbrev Registry := List (String × Nat)

/-- First-match association-list lookup (models both `unordered_map::find`
and a filesystem lookup of `<root>/d/<key>`). -/
def alookup {α : Type} : List (String × α) → String → Option α
  | [], _ => none
  | (k', v) :: rest, k => if k' = k then some v else alookup rest k

/-- Replace the binding of `k` (or add one): the effect of `rename(2)`
moving a fully written temp file onto `<root>/d/<k>`. -/
def aupsert : Files → String → Bytes → Files
  | [], k, v => [(k, v)]
  | (k', v') :: rest, k, v =>
    if k' = k then (k, v) :: rest else (k', v') :: aupsert rest k v

/-- Remove the binding of `k`: the effect of `unlink(2)` on `<root>/d/<k>`. -/
def aerase : Files → String → Files
  | [], _ => []
  | (k', v') :: rest, k =>
    if k' = k then aerase rest k else (k', v') :: aerase rest k

/-- Modelled from the spec: the category flags come from
`selfdrive/common/params.h`, which is not under `src/`; the spec (section 3)
defines them as independent lifecycle bits combined by bitwise OR. -/
def PERSISTENT : Nat := 0x02

/-- Category bit: wiped when the supervising process restarts. -/
def CLEAR_ON_MANAGER_START : Nat := 0x04

/-- Category bit: wiped when the hardware interface link drops. -/
def CLEAR_ON_PANDA_DISCONNECT : Nat := 0x08

/-- Category bit: wiped on ignition turning on. -/
def CLEAR_ON_IGNITION_ON : Nat := 0x10

/-- Category bit: wiped on ignition turning off. -/
def CLEAR_ON_IGNITION_OFF : Nat := 0x20

/-- Category bit: advisory, exclude from diagnostic log upload. -/
def DONT_LOG : Nat := 0x40

/-- Process state: the key registry and the files under `<root>/d`. -/
structure PState where
  reg : Registry
  files : Files
deriving DecidableEq

/-- Outcomes of the fallible steps of `Params::put`: whether `mkstemp`
succeeds, the return value of `write` (which may be negative or short),
and whether `fsync` of the temp file, the `rename`, and `fsync` of the
containing directory succeed. -/
structure PutEnv where
  mkstempOk : Bool
  writeRes : Int
  fsyncOk : Bool
  renameOk : Bool
  fsyncDirOk : Bool
deriving DecidableEq

/-- Outcome of the directory `fsync` step of `Params::remove`. -/
structure RemoveEnv where
  fsyncDirOk : Bool
deriving DecidableEq

/-- `Params::put`: write the value to a fresh temp file, fsync it, rename it
onto `<root>/d/<key>`, fsync the directory.  Returns -1 when `mkstemp`
fails, -20 when the `write` is negative or short, the failing step's
return value (-1) when `fsync` or `rename` fails, and otherwise the result
of `fsync_dir`.  The temp file lives in `<root>`, not in `<root>/d`, so a
failed attempt leaves the keyed subdirectory untouched; the rename is the
commit point, after which the new value is fully visible even if the final
directory sync fails. -/
def put (s : PState) (key : String) (value : Bytes) (env : PutEnv) : Int × PState :=
  if env.mkstempOk = false then (-1, s)
  else if env.writeRes < 0 ∨ env.writeRes ≠ (value.length : Int) then (-20, s)
  else if env.fsyncOk = false then (-1, s)
  else if env.renameOk = false then (-1, s)
  else
    let s' : PState := { s with files := aupsert s.files key value }
    if env.fsyncDirOk then (0, s') else (-1, s')

/-- `Params::remove`: unlink `<root>/d/<key>` and fsync the directory.
`unlink` fails (with ENOENT, returning -1) exactly when the file is
absent, in which case the call returns early with that failure; otherwise
the result is the result of `fsync_dir`. -/
def remove (s : PState) (key : String) (env : RemoveEnv) : Int × PState :=
  match alookup s.files key with
  | none => (-1, s)
  | some _ =>
    let s' : PState := { s with files := aerase s.files key }
    if env.fsyncDirOk then (0, s') else (-1, s')

/-- Modelled from the spec: `util::read_file` (from `selfdrive/common/util`,
not under `src/`) returns the file's full contents on success and the
empty string when the file does not exist or cannot be read, so a missing
file and an empty file both read as empty. -/
def read_file (fs : Files) (key : String) : Bytes := (alookup fs key).getD []

/-- `Params::get` in non-blocking mode: a single `util::read_file` of
`<root>/d/<key>`. -/
def get (s : PState) (key : String) : Bytes := read_file s.files key

/-- `Params::checkKey`: `keys.find(key) != keys.end()`; never mutates. -/
def checkKey (s : PState) (key : String) : Bool := (alookup s.reg key).isSome

/-- `Params::getKeyType`: `keys[key]` via `unordered_map::operator[]`, which
value-initializes and INSERTS an entry with mask 0 when the key is not
registered, mutating the registry. -/
def getKeyType (s : PState) (key : String) : Nat × PState :=
  match alookup s.reg key with
  | some t => (t, s)
  | none => (0, { s with reg := s.reg ++ [(key, 0)] })

/-- `Params::readAll`: a snapshot of every file in `<root>/d`
(`util::read_files_in_dir` under a shared lock). -/
def readAll (s : PState) : List (String × Bytes) := s.files

/-- `Params::clearAll`: iterate the registry and unlink the file of every
key whose category mask intersects `mask`, ignoring individual unlink
errors. -/
def clearAll (s : PState) (mask : Nat) : PState :=
  { s with
    files := s.reg.foldl
      (fun fs p => if p.2 &&& mask ≠ 0 then aerase fs p.1 else fs) s.files }

/-- The static key registry table of `params.cc` (lines 107-319), transcribed
entry for entry. -/
def keys : Registry := [
  ("AccessToken", CLEAR_ON_MANAGER_START ||| DONT_LOG),
  ("AthenadPid", PERSISTENT),
  ("BootedOnroad", CLEAR_ON_MANAGER_START ||| CLEAR_ON_IGNITION_OFF),
  ("CalibrationParams", PERSISTENT),
  ("CarBatteryCapacity", PERSISTENT),
  ("CarParams", CLEAR_ON_MANAGER_START ||| CLEAR_ON_PANDA_DISCONNECT ||| CLEAR_ON_IGNITION_ON),
  ("CarParamsCache", CLEAR_ON_MANAGER_START ||| CLEAR_ON_PANDA_DISCONNECT),
  ("CarVin", CLEAR_ON_MANAGER_START ||| CLEAR_ON_PANDA_DISCONNECT ||| CLEAR_ON_IGNITION_ON),
  ("CommunityFeaturesToggle", PERSISTENT),
  ("CompletedTrainingVersion", PERSISTENT),
  ("ControlsReady", CLEAR_ON_MANAGER_START ||| CLEAR_ON_PANDA_DISCONNECT ||| CLEAR_ON_IGNITION_ON),
  ("CurrentRoute", CLEAR_ON_MANAGER_START ||| CLEAR_ON_IGNITION_ON),
  ("DisablePowerDown", PERSISTENT),
  ("DisableRadar_Allow", PERSISTENT),
  ("DisableRadar", PERSISTENT),
  ("DisableUpdates", PERSISTENT),
  ("DongleId", PERSISTENT),
  ("DoUninstall", CLEAR_ON_MANAGER_START),
  ("EnableWideCamera", CLEAR_ON_MANAGER_START),
  ("EndToEndToggle", PERSISTENT),
  ("ForcePowerDown", CLEAR_ON_MANAGER_START),
  ("GitBranch", PERSISTENT),
  ("GitCommit", PERSISTENT),
  ("GitDiff", PERSISTENT),
  ("GithubSshKeys", PERSISTENT),
  ("GithubUsername", PERSISTENT),
  ("GitRemote", PERSISTENT),
  ("GsmApn", PERSISTENT),
  ("GsmRoaming", PERSISTENT),
  ("HardwareSerial", PERSISTENT),
  ("HasAcceptedTerms", PERSISTENT),
  ("IMEI", PERSISTENT),
  ("InstallDate", PERSISTENT),
  ("IsDriverViewEnabled", CLEAR_ON_MANAGER_START),
  ("IsLdwEnabled", PERSISTENT),
  ("IsMetric", PERSISTENT),
  ("IsOffroad", CLEAR_ON_MANAGER_START),
  ("IsOnroad", PERSISTENT),
  ("IsRHD", PERSISTENT),
  ("IsTakingSnapshot", CLEAR_ON_MANAGER_START),
  ("IsUpdateAvailable", CLEAR_ON_MANAGER_START),
  ("JoystickDebugMode", CLEAR_ON_MANAGER_START ||| CLEAR_ON_IGNITION_OFF),
  ("LastAthenaPingTime", CLEAR_ON_MANAGER_START),
  ("LastGPSPosition", PERSISTENT),
  ("LastUpdateException", PERSISTENT),
  ("LastUpdateTime", PERSISTENT),
  ("LiveParameters", PERSISTENT),
  ("NavDestination", CLEAR_ON_MANAGER_START ||| CLEAR_ON_IGNITION_OFF),
  ("NavSettingTime24h", PERSISTENT),
  ("OpenpilotEnabledToggle", PERSISTENT),
  ("PandaHeartbeatLost", CLEAR_ON_MANAGER_START ||| CLEAR_ON_IGNITION_OFF),
  ("Passive", PERSISTENT),
  ("PrimeRedirected", PERSISTENT),
  ("RecordFront", PERSISTENT),
  ("RecordFrontLock", PERSISTENT),
  ("ReleaseNotes", PERSISTENT),
  ("ShouldDoUpdate", CLEAR_ON_MANAGER_START),
  ("SshEnabled", PERSISTENT),
  ("SubscriberInfo", PERSISTENT),
  ("TermsVersion", PERSISTENT),
  ("Timezone", PERSISTENT),
  ("TrainingVersion", PERSISTENT),
  ("UpdateAvailable", CLEAR_ON_MANAGER_START),
  ("UpdateFailedCount", CLEAR_ON_MANAGER_START),
  ("UploadRaw", PERSISTENT),
  ("Version", PERSISTENT),
  ("VisionRadarToggle", PERSISTENT),
  ("ApiCache_Device", PERSISTENT),
  ("ApiCache_DriveStats", PERSISTENT),
  ("ApiCache_NavDestinations", PERSISTENT),
  ("ApiCache_Owner", PERSISTENT),
  ("Offroad_ChargeDisabled", CLEAR_ON_MANAGER_START ||| CLEAR_ON_PANDA_DISCONNECT),
  ("Offroad_ConnectivityNeeded", CLEAR_ON_MANAGER_START),
  ("Offroad_ConnectivityNeededPrompt", CLEAR_ON_MANAGER_START),
  ("Offroad_HardwareUnsupported", CLEAR_ON_MANAGER_START),
  ("Offroad_InvalidTime", CLEAR_ON_MANAGER_START),
  ("Offroad_IsTakingSnapshot", CLEAR_ON_MANAGER_START),
  ("Offroad_NeosUpdate", CLEAR_ON_MANAGER_START),
  ("Offroad_StorageMissing", CLEAR_ON_MANAGER_START),
  ("Offroad_PandaFirmwareMismatch", CLEAR_ON_MANAGER_START ||| CLEAR_ON_PANDA_DISCONNECT),
  ("Offroad_TemperatureTooHigh", CLEAR_ON_MANAGER_START),
  ("Offroad_UnofficialHardware", CLEAR_ON_MANAGER_START),
  ("Offroad_UpdateFailed", CLEAR_ON_MANAGER_START),
  ("GitCommitRemote", PERSISTENT),
  ("IsOpenpilotViewEnabled", CLEAR_ON_MANAGER_START),
  ("OpkrAutoShutdown", PERSISTENT),
  ("OpkrForceShutdown", PERSISTENT),
  ("OpkrForceShutdownTrigger", PERSISTENT),
  ("OpkrAutoScreenOff", PERSISTENT),
  ("OpkrUIBrightness", PERSISTENT),
  ("OpkrUIVolumeBoost", PERSISTENT),
  ("OpkrEnableDriverMonitoring", PERSISTENT),
  ("OpkrEnableLogger", PERSISTENT),
  ("OpkrEnableGetoffAlert", PERSISTENT),
  ("OpkrAutoResume", PERSISTENT),
  ("OpkrVariableCruise", PERSISTENT),
  ("OpkrLaneChangeSpeed", PERSISTENT),
  ("OpkrAutoLaneChangeDelay", PERSISTENT),
  ("OpkrSteerAngleCorrection", PERSISTENT),
  ("PutPrebuiltOn", PERSISTENT),
  ("LdwsCarFix", PERSISTENT),
  ("LateralControlMethod", PERSISTENT),
  ("CruiseStatemodeSelInit", PERSISTENT),
  ("OuterLoopGain", PERSISTENT),
  ("InnerLoopGain", PERSISTENT),
  ("TimeConstant", PERSISTENT),
  ("ActuatorEffectiveness", PERSISTENT),
  ("Scale", PERSISTENT),
  ("LqrKi", PERSISTENT),
  ("DcGain", PERSISTENT),
  ("IgnoreZone", PERSISTENT),
  ("PidKp", PERSISTENT),
  ("PidKi", PERSISTENT),
  ("PidKd", PERSISTENT),
  ("PidKf", PERSISTENT),
  ("CameraOffsetAdj", PERSISTENT),
  ("PathOffsetAdj", PERSISTENT),
  ("SteerRatioAdj", PERSISTENT),
  ("SteerRatioMaxAdj", PERSISTENT),
  ("SteerActuatorDelayAdj", PERSISTENT),
  ("SteerRateCostAdj", PERSISTENT),
  ("SteerLimitTimerAdj", PERSISTENT),
  ("TireStiffnessFactorAdj", PERSISTENT),
  ("SteerMaxAdj", PERSISTENT),
  ("SteerMaxBaseAdj", PERSISTENT),
  ("SteerDeltaUpAdj", PERSISTENT),
  ("SteerDeltaUpBaseAdj", PERSISTENT),
  ("SteerDeltaDownAdj", PERSISTENT),
  ("SteerDeltaDownBaseAdj", PERSISTENT),
  ("SteerMaxvAdj", PERSISTENT),
  ("OpkrBatteryChargingControl", PERSISTENT),
  ("OpkrBatteryChargingMin", PERSISTENT),
  ("OpkrBatteryChargingMax", PERSISTENT),
  ("LeftCurvOffsetAdj", PERSISTENT),
  ("RightCurvOffsetAdj", PERSISTENT),
  ("DebugUi1", PERSISTENT),
  ("DebugUi2", PERSISTENT),
  ("LongLogDisplay", PERSISTENT),
  ("OpkrBlindSpotDetect", PERSISTENT),
  ("OpkrMaxAngleLimit", PERSISTENT),
  ("OpkrSpeedLimitOffset", PERSISTENT),
  ("OpkrLiveSteerRatio", PERSISTENT),
  ("OpkrVariableSteerMax", PERSISTENT),
  ("OpkrVariableSteerDelta", PERSISTENT),
  ("FingerprintTwoSet", PERSISTENT),
  ("OpkrDrivingRecord", PERSISTENT),
  ("OpkrTurnSteeringDisable", PERSISTENT),
  ("CarModel", PERSISTENT),
  ("OpkrHotspotOnBoot", PERSISTENT),
  ("OpkrSSHLegacy", PERSISTENT),
  ("CruiseOverMaxSpeed", PERSISTENT),
  ("JustDoGearD", PERSISTENT),
  ("LanelessMode", PERSISTENT),
  ("ComIssueGone", PERSISTENT),
  ("MaxSteer", PERSISTENT),
  ("MaxRTDelta", PERSISTENT),
  ("MaxRateUp", PERSISTENT),
  ("MaxRateDown", PERSISTENT),
  ("SteerThreshold", PERSISTENT),
  ("RecordingCount", PERSISTENT),
  ("RecordingQuality", PERSISTENT),
  ("CruiseGapAdjust", PERSISTENT),
  ("AutoEnable", PERSISTENT),
  ("AutoEnableSpeed", PERSISTENT),
  ("CruiseAutoRes", PERSISTENT),
  ("AutoResOption", PERSISTENT),
  ("AutoResCondition", PERSISTENT),
  ("SteerWindDown", PERSISTENT),
  ("OpkrMonitoringMode", PERSISTENT),
  ("OpkrMonitorEyesThreshold", PERSISTENT),
  ("OpkrMonitorNormalEyesThreshold", PERSISTENT),
  ("OpkrMonitorBlinkThreshold", PERSISTENT),
  ("MadModeEnabled", PERSISTENT),
  ("CommaStockUI", PERSISTENT),
  ("OpkrEnableUploader", PERSISTENT),
  ("OpkrMapEnable", CLEAR_ON_MANAGER_START),
  ("WhitePandaSupport", PERSISTENT),
  ("SteerWarningFix", PERSISTENT),
  ("OpkrRunNaviOnBoot", PERSISTENT),
  ("CruiseGapNow", PERSISTENT),
  ("CruiseGap1", PERSISTENT),
  ("CruiseGap2", PERSISTENT),
  ("CruiseGap3", PERSISTENT),
  ("CruiseGap4", PERSISTENT),
  ("DynamicTR", PERSISTENT),
  ("OpkrBattLess", PERSISTENT),
  ("LCTimingFactorUD", PERSISTENT),
  ("LCTimingFactor30", PERSISTENT),
  ("LCTimingFactor60", PERSISTENT),
  ("LCTimingFactor80", PERSISTENT),
  ("LCTimingFactor110", PERSISTENT),
  ("OpkrUIBrightnessOff", PERSISTENT),
  ("LCTimingFactorEnable", PERSISTENT),
  ("SafetyCamDecelDistGain", PERSISTENT),
  ("OpkrLiveTunePanelEnable", PERSISTENT),
  ("KRDateShow", PERSISTENT),
  ("KRTimeShow", PERSISTENT),
  ("RadarLongHelper", PERSISTENT),
  ("GitPullOnBoot", PERSISTENT),
  ("LiveSteerRatioPercent", PERSISTENT),
  ("StoppingDistAdj", PERSISTENT),
  ("ShowError", PERSISTENT),
  ("CommaLong", PERSISTENT),
  ("AutoResLimitTime", PERSISTENT),
  ("VCurvSpeed30", PERSISTENT),
  ("VCurvSpeed50", PERSISTENT),
  ("VCurvSpeed70", PERSISTENT),
  ("VCurvSpeed90", PERSISTENT),
  ("VCurvSpeedUD", PERSISTENT),
  ("OCurvOffset", PERSISTENT),
  ("StockNaviSpeedEnabled", PERSISTENT)
]

/-- State of the storage layout that `create_params_path` manipulates:
whether the root directory exists, whether the keyed path `<root>/d`
exists, and how many uniquely-named temp directories have been created
under the root. -/
structure BootState where
  paramDirExists : Bool
  keyPathExists : Bool
  tmpDirs : Nat
deriving DecidableEq

/-- Outcome of the `rename` publishing the symlink onto `<root>/d`:
success, failure with `errno == EEXIST` (a concurrent initializer already
published the target), or any other failure. -/
inductive RenameOutcome where
  | ok
  | eexist
  | fail
deriving DecidableEq

/-- Outcomes of the fallible steps of `create_params_path`. -/
structure BootEnv where
  createDirsOk : Bool
  mkdtempOk : Bool
  symlinkOk : Bool
  renameOutcome : RenameOutcome
deriving DecidableEq

/-- `create_params_path`: ensure the root directory exists, then, only when
`<root>/d` does not yet exist, create a temp directory, symlink it, and
atomically rename the symlink onto `<root>/d`; a rename failing with
`EEXIST` (the target was already published by a concurrent initializer)
is treated as success.  In the `eexist` case the target exists by the
meaning of `EEXIST`, so `keyPathExists` holds afterwards. -/
def create_params_path (s : BootState) (env : BootEnv) : Bool × BootState :=
  if s.paramDirExists = false ∧ env.createDirsOk = false then (false, s)
  else
    let s1 : BootState := { s with paramDirExists := true }
    if s1.keyPathExists then (true, s1)
    else if env.mkdtempOk = false then (false, s1)
    else
      let s2 : BootState := { s1 with tmpDirs := s1.tmpDirs + 1 }
      if env.symlinkOk = false then (false, s2)
      else
        match env.renameOutcome with
        | .ok => (true, { s2 with keyPathExists := true })
        | .eexist => (true, { s2 with keyPathExists := true })
        | .fail => (false, s2)

/-- `ensure_params_path`: calls `create_params_path` and throws
(`none` here) when it reports failure. -/
def ensure_params_path (s : BootState) (env : BootEnv) : Option BootState :=
  match create_params_path s env with
  | (true, s') => some s'
  | (false, _) => none

/-- The handlers installed for SIGINT and SIGTERM, abstractly identified. -/
structure Handlers where
  sigint : Nat
  sigterm : Nat
deriving DecidableEq

/-- The polling loop of blocking `Params::get`: at poll `i` it first checks
the `params_do_exit` flag (`doExit i`), then reads the file (`reads i`
gives the contents `util::read_file` returns at that poll), breaking on a
non-empty value and otherwise sleeping 100 ms.  `fuel` bounds how many
polls we unroll; `none` means the loop is still running after `fuel`
polls. -/
def blockingLoop (reads : Nat → Bytes) (doExit : Nat → Bool) : Nat → Nat → Option Bytes
  | _, 0 => none
  | i, fuel + 1 =>
    if doExit i then some []
    else if reads i ≠ [] then some (reads i)
    else blockingLoop reads doExit (i + 1) fuel

/-- `Params::get` in blocking mode: reset `params_do_exit`, save the previous
SIGINT/SIGTERM handlers, install `params_sig_handler`, run the polling
loop, and on its (sole) exit path restore the saved handlers.  The result
pairs the value with the handlers in force after the call returns. -/
def getBlocking (h : Handlers) (reads : Nat → Bytes) (doExit : Nat → Bool)
    (fuel : Nat) : Option (Bytes × Handlers) :=
  (blockingLoop reads doExit 0 fuel).map (fun v => (v, h))

end ParamsModel

namespace ParamsModel

theorem alookup_aupsert_self (fs : Files) (k : String) (v : Bytes) :
    alookup (aupsert fs k v) k = some v := by
  induction fs with
  | nil => simp [aupsert, alookup]
  | cons p rest ih =>
    obtain ⟨k', v'⟩ := p
    by_cases h : k' = k
    · simp [aupsert, h, alookup]
    · simp [aupsert, h, alookup, ih]

theorem alookup_aupsert_ne (fs : Files) (k : String) (v : Bytes) (k' : String)
    (hne : k' ≠ k) : alookup (aupsert fs k v) k' = alookup fs k' := by
  have hne' : ¬ (k = k') := Ne.symm hne
  induction fs with
  | nil => simp [aupsert, alookup, hne']
  | cons p rest ih =>
    obtain ⟨k₁, v₁⟩ := p
    by_cases h : k₁ = k
    · subst h
      simp [aupsert, alookup, hne']
    · simp [aupsert, h, alookup, ih]

theorem alookup_aerase_self (fs : Files) (k : String) :
    alookup (aerase fs k) k = none := by
  induction fs with
  | nil => simp [aerase, alookup]
  | cons p rest ih =>
    obtain ⟨k₁, v₁⟩ := p
    by_cases h : k₁ = k
    · simp [aerase, h, ih]
    · simp [aerase, h, alookup, ih]

theorem alookup_aerase_ne (fs : Files) (k k' : String) (hne : k' ≠ k) :
    alookup (aerase fs k) k' = alookup fs k' := by
  have hne' : ¬ (k = k') := Ne.symm hne
  induction fs with
  | nil => simp [aerase]
  | cons p rest ih =>
    obtain ⟨k₁, v₁⟩ := p
    by_cases h : k₁ = k
    · subst h
      simp [aerase, alookup, hne', ih]
    · simp [aerase, h, alookup, ih]

theorem alookup_append_some {α : Type} (r l : List (String × α)) (k : String)
    (t : α) (h : alookup r k = some t) : alookup (r ++ l) k = some t := by
  induction r with
  | nil => simp [alookup] at h
  | cons p rest ih =>
    obtain ⟨k₁, t₁⟩ := p
    by_cases hk : k₁ = k
    · simp [alookup, hk] at h ⊢
      exact h
    · simp [alookup, hk] at h ⊢
      exact ih h

theorem alookup_clearFold (mask : Nat) (k : String) :
    ∀ (reg : Registry) (fs : Files),
    alookup (reg.foldl
        (fun fs p => if p.2 &&& mask ≠ 0 then aerase fs p.1 else fs) fs) k
      = if reg.any (fun p => decide (p.1 = k) && decide (p.2 &&& mask ≠ 0))
        then none else alookup fs k := by
  intro reg
  induction reg with
  | nil => intro fs; simp
  | cons p rest ih =>
    intro fs
    obtain ⟨k₁, t₁⟩ := p
    by_cases hm : t₁ &&& mask ≠ 0
    · by_cases hk : k₁ = k
      · subst hk
        rw [List.foldl_cons, if_pos hm, ih, alookup_aerase_self]
        simp [hm]
      · rw [List.foldl_cons, if_pos hm, ih,
          alookup_aerase_ne fs k₁ k (Ne.symm hk)]
        exact if_congr (by simp [hk]) rfl rfl
    · have heq : t₁ &&& mask = 0 := by
        by_contra hc
        exact hm hc
      rw [List.foldl_cons, if_neg hm, ih]
      exact if_congr (by simp [heq]) rfl rfl

theorem create_params_path_noop (s : BootState) (env : BootEnv)
    (h1 : s.paramDirExists = true) (h2 : s.keyPathExists = true) :
    create_params_path s env = (true, s) := by
  obtain ⟨pd, kp, td⟩ := s
  simp only at h1 h2
  subst h1
  subst h2
  simp [create_params_path]

theorem create_params_path_success_state (s : BootState) (env : BootEnv)
    (h : (create_params_path s env).1 = true) :
    ((create_params_path s env).2).paramDirExists = true
    ∧ ((create_params_path s env).2).keyPathExists = true := by
  obtain ⟨pd, kp, td⟩ := s
  obtain ⟨cd, mk, sy, ro⟩ := env
  cases pd <;> cases kp <;> cases cd <;> cases mk <;> cases sy <;> cases ro <;>
    simp_all [create_params_path]

theorem blockingLoop_cancelled (reads : Nat → Bytes) (doExit : Nat → Bool)
    (hempty : ∀ i, reads i = []) :
    ∀ (n i : Nat), doExit (i + n) = true →
    blockingLoop reads doExit i (n + 1) = some [] := by
  intro n
  induction n with
  | zero =>
    intro i h
    rw [Nat.add_zero] at h
    simp [blockingLoop, h]
  | succ m ih =>
    intro i h
    by_cases hd : doExit i = true
    · simp [blockingLoop, hd]
    · have hr := hempty i
      have h' : doExit (i + 1 + m) = true := by
        have hidx : i + 1 + m = i + (m + 1) := by omega
        rw [hidx]
        exact h
      rw [blockingLoop, if_neg hd, hr, if_neg (not_not_intro rfl)]
      exact ih (i + 1) h' 

/-- C1: for every key name and byte payload `v`, after a `put(name, v)` that
returns success (0), a non-blocking `get(name)` returns exactly `v`. -/
theorem put_get_roundtrip (s : PState) (key : String) (value : Bytes)
    (env : PutEnv) (h : (put s key value env).1 = 0) :
    get (put s key value env).2 key = value := by
  simp only [put] at h ⊢
  split_ifs at h ⊢ <;> simp_all [get, read_file, alookup_aupsert_self]

/-- C1 witness: a concrete successful `put` of the two bytes "ab" under
"DongleId" into the empty store round-trips through `get`. -/
theorem put_get_roundtrip_witness :
    get (put ⟨keys, []⟩ "DongleId" [97, 98] ⟨true, 2, true, true, true⟩).2
      "DongleId" = [97, 98] :=
  put_get_roundtrip ⟨keys, []⟩ "DongleId" [97, 98] ⟨true, 2, true, true, true⟩
    (by decide)

/-- C2 counterexample: starting from the empty store, a `put` of byte 49
under "DongleId" whose rename succeeds but whose final directory `fsync`
fails returns the failure status -1, yet the store did change: `get` now
returns the new value where it previously returned the absent result. -/
theorem put_fail_still_commits_counterexample :
    (put ⟨keys, []⟩ "DongleId" [49] ⟨true, 1, true, true, false⟩).1 = -1
    ∧ get (put ⟨keys, []⟩ "DongleId" [49] ⟨true, 1, true, true, false⟩).2
        "DongleId" = [49]
    ∧ get ⟨keys, []⟩ "DongleId" = [] :=
  ⟨by decide, by decide, by decide⟩

/-- C2 (amended): a `put` that fails at or before the commit rename
(temp-file creation, short or negative write, temp-file sync, rename)
leaves the store unchanged, and a failed `remove` whose unlink failed
leaves the store unchanged; in every failing run of either operation the
store is either untouched or carries the complete committed effect (the
full new value for `put`, full absence for `remove`) — never a partial
value.  Only the failure of the final directory sync, which happens after
the commit point, returns failure with the mutation already visible. -/
theorem put_remove_fail_atomicity (s : PState) (key : String) (value : Bytes)
    (env : PutEnv) (renv : RemoveEnv) :
    (env.mkstempOk = false ∨ env.writeRes < 0
        ∨ env.writeRes ≠ (value.length : Int)
        ∨ env.fsyncOk = false ∨ env.renameOk = false →
      (put s key value env).2 = s)
    ∧ ((put s key value env).1 ≠ 0 →
      (put s key value env).2 = s ∨ get (put s key value env).2 key = value)
    ∧ (alookup s.files key = none → (remove s key renv).2 = s)
    ∧ ((remove s key renv).1 ≠ 0 →
      (remove s key renv).2 = s ∨ get (remove s key renv).2 key = []) := by
  refine ⟨?_, ?_, ?_, ?_⟩
  · intro hfail
    simp only [put]
    split_ifs with h1 h2 h3 h4 h5 <;> try rfl
    · rcases hfail with h | h | h | h | h <;> simp_all
    · rcases hfail with h | h | h | h | h <;> simp_all
  · intro _
    simp only [put]
    split_ifs <;>
      simp [get, read_file, alookup_aupsert_self]
  · intro habs
    simp only [remove, habs]
  · intro _
    simp only [remove]
    cases halk : alookup s.files key with
    | none => left; rfl
    | some v =>
      right
      split_ifs <;> simp [get, read_file, alookup_aerase_self]

/-- C2 amended witness: concrete instances — a rename failure leaves the
empty store unchanged; the put that fails only in the directory sync shows
the full (never partial) new value; remove of a missing key leaves the
store unchanged and its failure status comes with no partial state. -/
theorem put_remove_fail_atomicity_witness :
    (put ⟨keys, []⟩ "DongleId" [49] ⟨true, 1, true, false, true⟩).2 = ⟨keys, []⟩
    ∧ ((put ⟨keys, []⟩ "DongleId" [49] ⟨true, 1, true, true, false⟩).2 = ⟨keys, []⟩
        ∨ get (put ⟨keys, []⟩ "DongleId" [49] ⟨true, 1, true, true, false⟩).2
            "DongleId" = [49])
    ∧ (remove ⟨keys, []⟩ "DongleId" ⟨true⟩).2 = ⟨keys, []⟩
    ∧ ((remove ⟨keys, []⟩ "DongleId" ⟨true⟩).2 = ⟨keys, []⟩
        ∨ get (remove ⟨keys, []⟩ "DongleId" ⟨true⟩).2 "DongleId" = []) :=
  ⟨(put_remove_fail_atomicity ⟨keys, []⟩ "DongleId" [49]
      ⟨true, 1, true, false, true⟩ ⟨true⟩).1 (Or.inr (Or.inr (Or.inr (Or.inr rfl)))),
   (put_remove_fail_atomicity ⟨keys, []⟩ "DongleId" [49]
      ⟨true, 1, true, true, false⟩ ⟨true⟩).2.1 (by decide),
   (put_remove_fail_atomicity ⟨keys, []⟩ "DongleId" [49]
      ⟨true, 1, true, true, false⟩ ⟨true⟩).2.2.1 rfl,
   (put_remove_fail_atomicity ⟨keys, []⟩ "DongleId" [49]
      ⟨true, 1, true, true, false⟩ ⟨true⟩).2.2.2 (by decide)⟩

/-- C3 counterexample: "NotAKey" is not in the registry, yet calling
`getKeyType` on it registers it (with mask 0), because
`unordered_map::operator[]` inserts a value-initialized entry: the set of
registered names changes at runtime. -/
theorem getKeyType_registers_unknown_counterexample :
    checkKey ⟨keys, []⟩ "NotAKey" = false
    ∧ checkKey (getKeyType ⟨keys, []⟩ "NotAKey").2 "NotAKey" = true :=
  ⟨by decide, by decide⟩

/-- C3 (amended): `put`, `remove` and `clearAll` never change the registry,
`getKeyType` on a registered name leaves the whole state unchanged, and no
operation ever changes the category mask of an already-registered name —
but `getKeyType` on an unregistered name inserts that name with mask 0
(see the counterexample). -/
theorem registry_mutation_characterization (s : PState) (key k₀ : String)
    (value : Bytes) (env : PutEnv) (renv : RemoveEnv) (mask t : Nat) :
    (put s key value env).2.reg = s.reg
    ∧ (remove s key renv).2.reg = s.reg
    ∧ (clearAll s mask).reg = s.reg
    ∧ (checkKey s key = true → (getKeyType s key).2 = s)
    ∧ (alookup s.reg k₀ = some t →
      alookup ((getKeyType s key).2).reg k₀ = some t) := by
  refine ⟨?_, ?_, rfl, ?_, ?_⟩
  · simp only [put]
    split_ifs <;> rfl
  · simp only [remove]
    cases alookup s.files key with
    | none => rfl
    | some v => split_ifs <;> rfl
  · intro hchk
    simp only [checkKey, Option.isSome_iff_exists] at hchk
    obtain ⟨t₁, ht₁⟩ := hchk
    simp [getKeyType, ht₁]
  · intro hreg
    simp only [getKeyType]
    cases hk : alookup s.reg key with
    | some t₁ => exact hreg
    | none => exact alookup_append_some s.reg [(key, 0)] k₀ t hreg

/-- C3 amended witness: concrete instances over the real registry — a put,
remove and clearAll leave the registry `keys` unchanged, `getKeyType` on
the registered "DongleId" changes nothing, and "DongleId" keeps its
PERSISTENT mask across a `getKeyType` of another name. -/
theorem registry_mutation_characterization_witness :
    (put ⟨keys, []⟩ "DongleId" [49] ⟨true, 1, true, true, true⟩).2.reg = keys
    ∧ (remove ⟨keys, [("DongleId", [49])]⟩ "DongleId" ⟨true⟩).2.reg = keys
    ∧ (clearAll ⟨keys, []⟩ CLEAR_ON_MANAGER_START).reg = keys
    ∧ (getKeyType ⟨keys, []⟩ "DongleId").2 = ⟨keys, []⟩
    ∧ alookup ((getKeyType ⟨keys, []⟩ "CarVin").2).reg "DongleId"
        = some PERSISTENT :=
  ⟨(registry_mutation_characterization ⟨keys, []⟩ "DongleId" "DongleId" [49]
      ⟨true, 1, true, true, true⟩ ⟨true⟩ CLEAR_ON_MANAGER_START PERSISTENT).1,
   (registry_mutation_characterization ⟨keys, [("DongleId", [49])]⟩ "DongleId"
      "DongleId" [49] ⟨true, 1, true, true, true⟩ ⟨true⟩ CLEAR_ON_MANAGER_START
      PERSISTENT).2.1,
   (registry_mutation_characterization ⟨keys, []⟩ "DongleId" "DongleId" [49]
      ⟨true, 1, true, true, true⟩ ⟨true⟩ CLEAR_ON_MANAGER_START PERSISTENT).2.2.1,
   (registry_mutation_characterization ⟨keys, []⟩ "DongleId" "DongleId" [49]
      ⟨true, 1, true, true, true⟩ ⟨true⟩ CLEAR_ON_MANAGER_START
      PERSISTENT).2.2.2.1 (by decide),
   (registry_mutation_characterization ⟨keys, []⟩ "CarVin" "DongleId" [49]
      ⟨true, 1, true, true, true⟩ ⟨true⟩ CLEAR_ON_MANAGER_START
      PERSISTENT).2.2.2.2 (by decide)⟩

/-- C4: `clearAll(mask)` removes exactly the registered keys whose category
mask intersects `mask`: afterwards the file (and hence `get`) of every key
with a registered intersecting mask is absent, and every other key — a
registered key with a non-intersecting mask, or an unregistered file —
keeps its prior contents. -/
theorem clearAll_selective (s : PState) (mask : Nat) (k : String) :
    alookup (clearAll s mask).files k
      = (if s.reg.any (fun p => decide (p.1 = k) && decide (p.2 &&& mask ≠ 0))
         then none else alookup s.files k)
    ∧ get (clearAll s mask) k
      = (if s.reg.any (fun p => decide (p.1 = k) && decide (p.2 &&& mask ≠ 0))
         then [] else get s k) := by
  have h := alookup_clearFold mask k s.reg s.files
  refine ⟨h, ?_⟩
  simp only [get, read_file, clearAll] at h ⊢
  rw [h]
  split_ifs <;> rfl

/-- C5 counterexample: three different failure cases of `put` — temp-file
creation failure, temp-file sync failure, and rename failure — all return
the same value -1, so the failure cases are not pairwise distinguishable
by the return value. -/
theorem put_failure_statuses_collide_counterexample :
    (put ⟨keys, []⟩ "DongleId" [49] ⟨false, 1, true, true, true⟩).1 = -1
    ∧ (put ⟨keys, []⟩ "DongleId" [49] ⟨true, 1, false, true, true⟩).1 = -1
    ∧ (put ⟨keys, []⟩ "DongleId" [49] ⟨true, 1, true, false, true⟩).1 = -1 :=
  ⟨by decide, by decide, by decide⟩

/-- C5 (amended): `put` returns a failure status (a negative value, never a
thrown fault) for each failure case, and a short/partial write is
distinguishable from the rest (-20); but temp-file creation, temp-file
sync, rename and directory-sync failures all return -1 and are therefore
not pairwise distinguishable by the return value alone. -/
theorem put_status_taxonomy (s : PState) (key : String) (value : Bytes)
    (env : PutEnv) :
    (env.mkstempOk = false → (put s key value env).1 = -1)
    ∧ (env.mkstempOk = true →
      env.writeRes < 0 ∨ env.writeRes ≠ (value.length : Int) →
      (put s key value env).1 = -20)
    ∧ (env.mkstempOk = true → env.writeRes = (value.length : Int) →
      env.fsyncOk = false → (put s key value env).1 = -1)
    ∧ (env.mkstempOk = true → env.writeRes = (value.length : Int) →
      env.fsyncOk = true → env.renameOk = false →
      (put s key value env).1 = -1)
    ∧ (env.mkstempOk = true → env.writeRes = (value.length : Int) →
      env.fsyncOk = true → env.renameOk = true →
      (put s key value env).1 = if env.fsyncDirOk then 0 else -1) := by
  have hlen : ¬ ((value.length : Int) < 0) := by
    exact Int.not_lt.mpr (Int.natCast_nonneg value.length)
  refine ⟨?_, ?_, ?_, ?_, ?_⟩
  · intro h1
    simp [put, h1]
  · intro h1 h2
    simp [put, h1, h2]
  · intro h1 h2 h3
    simp [put, h1, h2, h3, hlen]
  · intro h1 h2 h3 h4
    simp [put, h1, h2, h3, h4, hlen]
  · intro h1 h2 h3 h4
    simp only [put, h1, h2, h3, h4, hlen]
    split_ifs <;> simp_all

/-- C5 amended witness: the five status cases of `put` evaluated at concrete
environments. -/
theorem put_status_taxonomy_witness :
    (put ⟨keys, []⟩ "DongleId" [49] ⟨false, 1, true, true, true⟩).1 = -1
    ∧ (put ⟨keys, []⟩ "DongleId" [49] ⟨true, 0, true, true, true⟩).1 = -20
    ∧ (put ⟨keys, []⟩ "DongleId" [49] ⟨true, 1, false, true, true⟩).1 = -1
    ∧ (put ⟨keys, []⟩ "DongleId" [49] ⟨true, 1, true, false, true⟩).1 = -1
    ∧ (put ⟨keys, []⟩ "DongleId" [49] ⟨true, 1, true, true, true⟩).1 = 0 :=
  ⟨(put_status_taxonomy ⟨keys, []⟩ "DongleId" [49]
      ⟨false, 1, true, true, true⟩).1 rfl,
   (put_status_taxonomy ⟨keys, []⟩ "DongleId" [49]
      ⟨true, 0, true, true, true⟩).2.1 rfl (Or.inr (by decide)),
   (put_status_taxonomy ⟨keys, []⟩ "DongleId" [49]
      ⟨true, 1, false, true, true⟩).2.2.1 rfl (by decide) rfl,
   (put_status_taxonomy ⟨keys, []⟩ "DongleId" [49]
      ⟨true, 1, true, false, true⟩).2.2.2.1 rfl (by decide) rfl rfl,
   (put_status_taxonomy ⟨keys, []⟩ "DongleId" [49]
      ⟨true, 1, true, true, true⟩).2.2.2.2 rfl (by decide) rfl rfl⟩

/-- C6: after a `remove(name)` that returns success, a subsequent `get(name)`
returns the absent result; and when the key's file does not exist, the
unlink fails and `remove(name)` returns a non-zero failure status. -/
theorem remove_then_get_absent (s : PState) (key : String) (renv : RemoveEnv) :
    ((remove s key renv).1 = 0 → get (remove s key renv).2 key = [])
    ∧ (alookup s.files key = none → (remove s key renv).1 ≠ 0) := by
  constructor
  · intro h
    simp only [remove] at h ⊢
    cases halk : alookup s.files key with
    | none => simp [halk] at h
    | some v =>
      simp only [halk] at h ⊢
      split_ifs at h ⊢ <;> simp_all [get, read_file, alookup_aerase_self]
  · intro habs
    simp [remove, habs]

/-- C6 witness: removing the present key "DongleId" makes `get` return the
absent result, and removing it from the empty store reports failure. -/
theorem remove_then_get_absent_witness :
    get (remove ⟨keys, [("DongleId", [49])]⟩ "DongleId" ⟨true⟩).2 "DongleId" = []
    ∧ (remove ⟨keys, []⟩ "DongleId" ⟨true⟩).1 ≠ 0 :=
  ⟨(remove_then_get_absent ⟨keys, [("DongleId", [49])]⟩ "DongleId" ⟨true⟩).1
      (by decide),
   (remove_then_get_absent ⟨keys, []⟩ "DongleId" ⟨true⟩).2 rfl⟩

/-- C7: non-blocking `get` returns the explicit absent/empty result both for
a state where the key's file does not exist and for a state where the file
exists with empty contents, and the two results are equal, so the caller
cannot tell the two cases apart. -/
theorem get_missing_and_empty_agree (s s' : PState) (key : String)
    (h1 : alookup s.files key = none) (h2 : alookup s'.files key = some []) :
    get s key = [] ∧ get s' key = [] ∧ get s key = get s' key := by
  simp [get, read_file, h1, h2]

/-- C7 witness: the empty store and a store holding an empty file under
"DongleId" give the same (empty) `get` result. -/
theorem get_missing_and_empty_agree_witness :
    get ⟨keys, []⟩ "DongleId" = []
    ∧ get ⟨keys, [("DongleId", [])]⟩ "DongleId" = []
    ∧ get ⟨keys, []⟩ "DongleId" = get ⟨keys, [("DongleId", [])]⟩ "DongleId" :=
  get_missing_and_empty_agree ⟨keys, []⟩ ⟨keys, [("DongleId", [])]⟩ "DongleId"
    rfl (by decide)

/-- C8: a blocking `get` on a key that never receives a non-empty value
(`reads` always empty) terminates once the cancellation flag is raised
(`doExit` true at poll `n`): within one further guard check — fuel `n + 1`
suffices — it returns the absent/empty result, and the handlers in force
after the call are exactly the previously installed ones. -/
theorem blocking_get_cancellation (h : Handlers) (reads : Nat → Bytes)
    (doExit : Nat → Bool) (n : Nat) (hempty : ∀ i, reads i = [])
    (hsig : doExit n = true) :
    getBlocking h reads doExit (n + 1) = some ([], h) := by
  unfold getBlocking
  rw [blockingLoop_cancelled reads doExit hempty n 0 (by rwa [Nat.zero_add])]
  rfl

/-- C8 witness: with the cancellation flag raised from poll 2 on and a key
that always reads empty, the blocking `get` returns the empty result
within fuel 3, with the original handlers (3, 4) back in force. -/
theorem blocking_get_cancellation_witness :
    getBlocking ⟨3, 4⟩ (fun _ => []) (fun i => decide (2 ≤ i)) 3
      = some ([], ⟨3, 4⟩) :=
  blocking_get_cancellation ⟨3, 4⟩ (fun _ => []) (fun i => decide (2 ≤ i)) 2
    (fun _ => rfl) (by decide)

/-- C9: directory bootstrap is idempotent.  (1) When the root and the keyed
subdirectory `root/d` already exist, `create_params_path` succeeds and
leaves the storage layout unchanged; (2) a final rename failing because
the target already exists (`EEXIST`) is treated as success; (3) after any
successful `ensure_params_path`, a repeated call returns success with the
state of the first call unchanged, whatever its environment. -/
theorem ensure_params_path_idempotent :
    (∀ (s : BootState) (env : BootEnv),
      s.paramDirExists = true → s.keyPathExists = true →
      create_params_path s env = (true, s))
    ∧ (∀ (s : BootState) (env : BootEnv),
      s.paramDirExists = true ∨ env.createDirsOk = true →
      env.mkdtempOk = true → env.symlinkOk = true →
      env.renameOutcome = RenameOutcome.eexist →
      (create_params_path s env).1 = true)
    ∧ (∀ (s s' : BootState) (env env2 : BootEnv),
      ensure_params_path s env = some s' →
      ensure_params_path s' env2 = some s') := by
  refine ⟨fun s env h1 h2 => create_params_path_noop s env h1 h2, ?_, ?_⟩
  · intro s env hd hm hs hr
    obtain ⟨pd, kp, td⟩ := s
    obtain ⟨cd, mk, sy, ro⟩ := env
    simp only at hd hm hs hr
    subst hm
    subst hs
    subst hr
    cases pd <;> cases kp <;> cases cd <;> simp_all [create_params_path]
  · intro s s' env env2 hsome
    unfold ensure_params_path at hsome
    rcases hc : create_params_path s env with ⟨b, st⟩
    rw [hc] at hsome
    cases b with
    | false => cases hsome
    | true =>
      have hkey := create_params_path_success_state s env (by rw [hc])
      rw [hc] at hkey
      have hst : st = s' := by
        simpa using hsome
      subst hst
      unfold ensure_params_path
      rw [create_params_path_noop st env2 hkey.1 hkey.2]

/-- C9 witness: (1) bootstrap on an already-initialized layout is a no-op
success; (2) an `EEXIST` rename is success; (3) a successful
`ensure_params_path` followed by a second call — even in an environment
where every step would fail — returns the same state. -/
theorem ensure_params_path_idempotent_witness :
    create_params_path ⟨true, true, 1⟩ ⟨true, true, true, RenameOutcome.ok⟩
      = (true, ⟨true, true, 1⟩)
    ∧ (create_params_path ⟨false, false, 0⟩
        ⟨true, true, true, RenameOutcome.eexist⟩).1 = true
    ∧ ensure_params_path ⟨true, true, 5⟩
        ⟨false, false, false, RenameOutcome.fail⟩ = some ⟨true, true, 5⟩ :=
  ⟨ensure_params_path_idempotent.1 ⟨true, true, 1⟩
      ⟨true, true, true, RenameOutcome.ok⟩ rfl rfl,
   ensure_params_path_idempotent.2.1 ⟨false, false, 0⟩
      ⟨true, true, true, RenameOutcome.eexist⟩ (Or.inr rfl) rfl rfl rfl,
   ensure_params_path_idempotent.2.2 ⟨true, true, 5⟩ ⟨true, true, 5⟩
      ⟨true, true, true, RenameOutcome.ok⟩ ⟨false, false, false, RenameOutcome.fail⟩
      (by decide)⟩

/-- C10: frame property — `put(k, v)` and `remove(k)` leave the value stored
under any other key `k'` unchanged: `get(k')` afterwards returns the same
result as before, in every environment (success or failure). -/
theorem put_remove_frame (s : PState) (k k' : String) (value : Bytes)
    (env : PutEnv) (renv : RemoveEnv) (hne : k' ≠ k) :
    get (put s k value env).2 k' = get s k'
    ∧ get (remove s k renv).2 k' = get s k' := by
  constructor
  · simp only [put]
    split_ifs <;>
      simp [get, read_file, alookup_aupsert_ne s.files k value k' hne]
  · simp only [remove]
    cases halk : alookup s.files k with
    | none => rfl
    | some v =>
      split_ifs <;> simp [get, read_file, alookup_aerase_ne s.files k k' hne]

/-- C10 witness: a successful put and a successful remove of "DongleId" both
leave the value stored under "CarVin" intact. -/
theorem put_remove_frame_witness :
    get (put ⟨keys, [("CarVin", [1])]⟩ "DongleId" [49]
        ⟨true, 1, true, true, true⟩).2 "CarVin" = [1]
    ∧ get (remove ⟨keys, [("CarVin", [1]), ("DongleId", [49])]⟩ "DongleId"
        ⟨true⟩).2 "CarVin" = [1] :=
  ⟨(put_remove_frame ⟨keys, [("CarVin", [1])]⟩ "DongleId" "CarVin" [49]
      ⟨true, 1, true, true, true⟩ ⟨true⟩ (by decide)).1,
   (put_remove_frame ⟨keys, [("CarVin", [1]), ("DongleId", [49])]⟩ "DongleId"
      "CarVin" [49] ⟨true, 1, true, true, true⟩ ⟨true⟩ (by decide)).2⟩

end ParamsModel
